import Mathlib

/-!
Shallow embedding of the Pooled Database Access Core of the repository
(src/config.py, src/db.py, src/utils.py, src/doc_parser.py): a
connection-pool manager with retrying startup, health checking, scoped
connection acquisition, a query-execution facade, and vector-query
encoding.  External effects — the asyncpg driver, the network, the
backing store, `asyncio.sleep` — are modelled by explicit oracles passed
in as arguments, so every operation is a pure function of the manager
state and the environment's answers.
-/

namespace Spec2Proof

/-- The Python exception values relevant to the database layer: built-in
`ValueError`, the repository's own `DatabaseError` (src/db.py line 8),
and raw driver-level (asyncpg) errors. -/
inductive PyErr : Type where
  | valueError (msg : String)
  | databaseError (msg : String)
  | driverError (msg : String)
deriving DecidableEq

/-- The message carried by an exception (Python `str(e)`). -/
def PyErr.msg : PyErr → String
  | .valueError m => m
  | .databaseError m => m
  | .driverError m => m

/-- Whether an exception is the domain error `DatabaseError`. -/
def PyErr.isDatabaseError : PyErr → Bool
  | .databaseError _ => true
  | _ => false

/-- src/config.py: `Config.DATABASE_URL = os.getenv("DATABASE_URL")` —
an optional string (absent when the environment variable is unset). -/
structure Config : Type where
  DATABASE_URL : Option String
deriving DecidableEq

/-- Python truthiness of `self.config.DATABASE_URL` as tested at
src/db.py line 26 (`if not self.config.DATABASE_URL`): `None` and the
empty string are falsy, every other string is truthy. -/
def Config.dsnTruthy (cfg : Config) : Bool :=
  match cfg.DATABASE_URL with
  | none => false
  | some s => !s.isEmpty

/-- Model of an `asyncpg.Pool` object.  All the claims depend on is
whether `pool.close()` has been called on it. -/
structure Pool : Type where
  closed : Bool
deriving DecidableEq

/-- A pool as `asyncpg.create_pool` returns it: open. -/
def Pool.new : Pool := ⟨false⟩

/-- The mutable state of a `DatabaseManager` (src/db.py lines 17-22):
`self.pool` and `self._is_connected`. -/
structure ManagerState : Type where
  pool : Option Pool
  connectedFlag : Bool
deriving DecidableEq

/-- `DatabaseManager.__init__`: `self.pool = None`,
`self._is_connected = False`. -/
def initState : ManagerState := ⟨none, false⟩

/-- src/db.py line 21: `self._retry_attempts = 3`. -/
def retryAttempts : Nat := 3

/-- src/db.py line 22: `self._retry_delay = 1.0` (time-units). -/
def retryDelay : ℚ := 1

/-- Driver-level `self.pool.acquire()`: acquiring from a closed pool
raises an asyncpg interface error; on an open pool the outcome is
whatever the environment oracle `acq` answers. -/
def Pool.acquire (p : Pool) (acq : Except PyErr Unit) : Except PyErr Unit :=
  if p.closed then .error (.driverError "pool is closed") else acq

/-- `DatabaseManager.get_connection` (src/db.py lines 87-100) as used by
`async with self.get_connection() as conn: body`.  If `self.pool` is
unset it raises the "not initialized" `DatabaseError`.  Otherwise the
`try/except` wraps both a failure of `self.pool.acquire()` and an
exception raised by the body — with `@asynccontextmanager`, a body
exception is thrown into the generator at the `yield` and caught by the
same `except Exception` — into
`DatabaseError("Failed to acquire database connection: ...")`. -/
def get_connection (st : ManagerState) (acq : Except PyErr Unit)
    (body : Except PyErr α) : Except PyErr α :=
  match st.pool with
  | none => .error (.databaseError
      "Database pool not initialized. Call create_pool() first.")
  | some p =>
    match p.acquire acq with
    | .error e => .error (.databaseError
        ("Failed to acquire database connection: " ++ e.msg))
    | .ok _ =>
      match body with
      | .ok a => .ok a
      | .error e => .error (.databaseError
          ("Failed to acquire database connection: " ++ e.msg))

/-- `DatabaseManager.health_check` (src/db.py lines 72-80): inside a
connection scope run `SELECT 1` (`fetch` is the oracle for
`conn.fetchval("SELECT 1")`) and return whether the result equals `1`;
any exception is caught and yields `false` — never re-raised. -/
def health_check (st : ManagerState) (acq : Except PyErr Unit)
    (fetch : Except PyErr Int) : Bool :=
  match get_connection st acq (fetch.map (fun v => v == 1)) with
  | .ok b => b
  | .error _ => false

/-- `DatabaseManager.is_connected` (src/db.py lines 82-85):
`self._is_connected and self.pool is not None`. -/
def is_connected (st : ManagerState) : Bool :=
  st.connectedFlag && st.pool.isSome

/-- `DatabaseManager.close_pool` (src/db.py lines 64-70): if a pool
exists, close it and clear the connected flag; otherwise do nothing.
Note that `self.pool` itself is never set back to `None`. -/
def close_pool (st : ManagerState) : ManagerState :=
  match st.pool with
  | none => st
  | some p => ⟨some { p with closed := true }, false⟩

/-- Environment oracle for `create_pool`: per attempt index (0-based),
whether `asyncpg.create_pool` raises (`some e`) or succeeds (`none`),
and the outcomes the new pool gives to the post-creation health probe's
connection acquisition and `SELECT 1` fetch on that attempt. -/
structure Store : Type where
  createErr : Nat → Option PyErr
  probeAcq : Nat → Except PyErr Unit
  probeFetch : Nat → Except PyErr Int

/-- The observable outcome of one `create_pool` call: the value returned
or exception raised, the final manager state, the `asyncio.sleep`
backoff durations in order, the number of attempts made, and the manager
state at the end of each attempt. -/
structure CreatePoolOutcome : Type where
  result : Except PyErr Unit
  state : ManagerState
  sleeps : List ℚ
  attemptsMade : Nat
  states : List ManagerState

/-- The retry loop of `DatabaseManager.create_pool` (src/db.py lines
29-62), entered at index `attempt` with `remaining` loop iterations left
(`remaining = retryAttempts - attempt`).  If `asyncpg.create_pool`
raises and this is not the last iteration, sleep
`retryDelay * 2 ^ attempt` and continue; on the last iteration, raise a
`DatabaseError` naming the attempt budget and wrapping the last error.
If construction succeeds, assign the new pool, run the health probe —
whose boolean result the source discards — set the connected flag and
return. -/
def create_pool_loop (store : Store) (st : ManagerState) :
    Nat → Nat → CreatePoolOutcome
  | _, 0 => ⟨.ok (), st, [], 0, []⟩
  | attempt, r + 1 =>
    match store.createErr attempt with
    | some e =>
      if r = 0 then
        ⟨.error (.databaseError
            ("Failed to establish database connection after "
              ++ toString retryAttempts ++ " attempts: " ++ e.msg)),
          st, [], 1, [st]⟩
      else
        let rest := create_pool_loop store st (attempt + 1) r
        ⟨rest.result, rest.state, retryDelay * 2 ^ attempt :: rest.sleeps,
          rest.attemptsMade + 1, st :: rest.states⟩
    | none =>
      let st1 : ManagerState := ⟨some Pool.new, st.connectedFlag⟩
      let _probe := health_check st1 (store.probeAcq attempt)
        (store.probeFetch attempt)
      let st2 : ManagerState := ⟨st1.pool, true⟩
      ⟨.ok (), st2, [], 1, [st2]⟩

/-- `DatabaseManager.create_pool` (src/db.py lines 24-62): a falsy DSN
(absent or empty `DATABASE_URL`) raises `ValueError` at once, before the
loop; otherwise the retry loop runs for up to `retryAttempts`
iterations. -/
def create_pool (cfg : Config) (store : Store) (st : ManagerState) :
    CreatePoolOutcome :=
  if cfg.dsnTruthy then create_pool_loop store st 0 retryAttempts
  else ⟨.error (.valueError "Database URL not configured"), st, [], 0, []⟩

/-- `DatabaseManager.execute_query` (src/db.py lines 109-117): run the
fetch inside a connection scope and return all rows eagerly; any
exception is caught and re-raised as
`DatabaseError("Query execution failed: ...")`.  The fetch oracle is
indexed by invocation number and the body consults only invocation `0`:
the statement is executed once, never re-run. -/
def execute_query (st : ManagerState) (acq : Except PyErr Unit)
    (fetch : Nat → Except PyErr (List α)) : Except PyErr (List α) :=
  match get_connection st acq (fetch 0) with
  | .ok rows => .ok rows
  | .error e => .error (.databaseError ("Query execution failed: " ++ e.msg))

/-- Python's `sep.join(items)` on a list of strings. -/
def pyJoin (sep : String) : List String → String
  | [] => ""
  | [x] => x
  | x :: y :: xs => x ++ sep ++ pyJoin sep (y :: xs)

/-- `embedding_to_postgres_vector` (src/utils.py lines 11-21, duplicated
at src/doc_parser.py lines 66-67):
`f'[{",".join(str(x) for x in embedding)}]'`.  `pystr` stands for
Python's `str` applied to a float — the default decimal text rendering —
passed in abstractly since the embedding carries opaque floats. -/
def embedding_to_postgres_vector (pystr : α → String) (embedding : List α) :
    String :=
  "[" ++ pyJoin "," (embedding.map pystr) ++ "]"

/-- The vector-literal format in the words of §4.4 of the specification:
the values' renderings joined by commas, enclosed in square brackets
(spec-side definition, for comparison with the source's). -/
def specVectorLiteral (pystr : α → String) (xs : List α) : String :=
  "[" ++ String.intercalate "," (xs.map pystr) ++ "]"

/-- A stored row of the `documents` table: `(content, embedding)`. -/
structure DocRow : Type where
  content : String
  emb : List ℚ

/-- Comparison by the computed `score` column, as in `ORDER BY score`. -/
def scoreLE (a b : String × ℚ) : Prop := a.2 ≤ b.2

instance : DecidableRel scoreLE := fun a b =>
  inferInstanceAs (Decidable (a.2 ≤ b.2))

instance : IsTotal (String × ℚ) scoreLE := ⟨fun a b => le_total a.2 b.2⟩

instance : IsTrans (String × ℚ) scoreLE := ⟨fun _ _ _ h h2 => le_trans h h2⟩

/-- Modelled from the spec: the backing store's evaluation of the SQL
text issued by `call_defra_docs` (src/utils.py lines 94-99) —
`SELECT content, 1 - (embedding <=> $1) AS score FROM documents
ORDER BY score ASC LIMIT 5`.  The store and its `<=>` distance operator
are not part of the repository, so the row semantics follows §4.4: for
every stored document compute `1 - dist(embedding, q)` as its score,
order ascending by that score, and return at most 5 rows.  `dist` is the
store's vector-distance operator, kept abstract. -/
def similarity_rows (dist : List ℚ → List ℚ → ℚ) (docs : List DocRow)
    (q : List ℚ) : List (String × ℚ) :=
  ((docs.map (fun d => (d.content, 1 - dist d.emb q))).insertionSort
    scoreLE).take 5

/-- The `Document` response model (src/utils.py lines 24-39). -/
structure Document : Type where
  content : String
  score : ℚ
deriving DecidableEq

/-- The `ToolInput` model (src/utils.py lines 42-56): a single `query`
string. -/
structure ToolInput : Type where
  query : String

/-- `call_defra_docs` (src/utils.py lines 59-108): take `input.query`
verbatim, embed it via the external embedding client `embed`, run the
similarity query against the store, and convert the returned rows to
`Document`s.  (The encode/decode round-trip of the vector literal at the
store boundary is the store's own and is elided.) -/
def call_defra_docs (embed : String → List ℚ)
    (dist : List ℚ → List ℚ → ℚ) (docs : List DocRow)
    (input : ToolInput) : List Document :=
  let input_query := input.query
  let embedded_query := embed input_query
  (similarity_rows dist docs embedded_query).map (fun r => ⟨r.1, r.2⟩)

/-- The query preprocessing that the tool's input schema (src/utils.py
lines 42-56) documents: for a query prefixed with `"Defra:"`, only the
text after the prefix would be used for searching.  Stated from the
schema's words, for comparison with the actual behavior. -/
def schemaStrippedQuery (q : String) : String :=
  if q.take 6 = "Defra:" then q.drop 6 else q

/-! Concrete environments used by the theorems below. -/

/-- A configuration with a non-empty DSN. -/
def cfgSet : Config := ⟨some "postgresql://localhost/defra"⟩

/-- A configuration whose DSN is the empty string (falsy). -/
def cfgEmpty : Config := ⟨some ""⟩

/-- A store on which every operation succeeds. -/
def storeOK : Store := ⟨fun _ => none, fun _ => .ok (), fun _ => .ok 1⟩

/-- A store whose pool construction fails on every attempt. -/
def storeFail : Store :=
  ⟨fun _ => some (.driverError "connection refused"),
   fun _ => .ok (), fun _ => .ok 1⟩

/-- A store where pool construction succeeds but the health probe's
`SELECT 1` fetch fails. -/
def storeBadProbe : Store :=
  ⟨fun _ => none, fun _ => .ok (),
   fun _ => .error (.driverError "connection reset by peer")⟩

/-- A store failing the first two constructions and succeeding from the
third on. -/
def storeThird : Store :=
  ⟨fun i => if i < 2 then some (.driverError "connection refused") else none,
   fun _ => .ok (), fun _ => .ok 1⟩

/-! Unfolding lemmas for the retry loop. -/

/-- Last loop iteration, construction fails: raise the wrapping
`DatabaseError`. -/
theorem create_pool_loop_last_err (store : Store) (st : ManagerState)
    (attempt : Nat) (e : PyErr) (h : store.createErr attempt = some e) :
    create_pool_loop store st attempt 1 =
      ⟨.error (.databaseError
          ("Failed to establish database connection after "
            ++ toString retryAttempts ++ " attempts: " ++ e.msg)),
        st, [], 1, [st]⟩ := by
  simp [create_pool_loop, h]

/-- Non-last loop iteration, construction fails: sleep and recurse. -/
theorem create_pool_loop_step_err (store : Store) (st : ManagerState)
    (attempt : Nat) (e : PyErr) (r : Nat) (hr : r ≠ 0)
    (h : store.createErr attempt = some e) :
    create_pool_loop store st attempt (r + 1) =
      ⟨(create_pool_loop store st (attempt + 1) r).result,
        (create_pool_loop store st (attempt + 1) r).state,
        retryDelay * 2 ^ attempt ::
          (create_pool_loop store st (attempt + 1) r).sleeps,
        (create_pool_loop store st (attempt + 1) r).attemptsMade + 1,
        st :: (create_pool_loop store st (attempt + 1) r).states⟩ := by
  simp [create_pool_loop, h, hr]

/-- Loop iteration where construction succeeds: assign the pool, run the
probe (result discarded), set the flag and return. -/
theorem create_pool_loop_ok (store : Store) (st : ManagerState)
    (attempt : Nat) (r : Nat) (h : store.createErr attempt = none) :
    create_pool_loop store st attempt (r + 1) =
      ⟨.ok (), ⟨some Pool.new, true⟩, [], 1, [⟨some Pool.new, true⟩]⟩ := by
  simp [create_pool_loop, h]

/-- C1: the claim says that after a successful `CreatePool`,
`IsConnected` is true iff the post-creation health probe succeeded, a
failed probe counting as a failed attempt.  The code violates this
(src/db.py line 48 discards the boolean result of `health_check`): with
a store whose pool construction succeeds but whose probe fetch fails,
`create_pool` still returns success and `is_connected` is true, although
the probe run on that very attempt evaluates to `false`. -/
theorem c1_probe_failure_still_connected :
    (create_pool cfgSet storeBadProbe initState).result = .ok () ∧
    is_connected (create_pool cfgSet storeBadProbe initState).state = true ∧
    health_check ⟨some Pool.new, false⟩ (storeBadProbe.probeAcq 0)
      (storeBadProbe.probeFetch 0) = false :=
  ⟨rfl, rfl, rfl⟩

/-- The manager state after a successful `create_pool` followed by
`close_pool`. -/
def stClosed : ManagerState :=
  close_pool (create_pool cfgSet storeOK initState).state

/-- C2 counterexample: after `close_pool`, a subsequent `get_connection`
does fail — but with the acquisition-wrapping `DatabaseError`, not the
"not initialized" one the claim states, because `close_pool` leaves
`self.pool` set to the (closed) pool object. -/
theorem c2_counterexample :
    get_connection stClosed (.ok ()) (.ok (1 : Int)) =
      .error (.databaseError
        "Failed to acquire database connection: pool is closed") ∧
    "Failed to acquire database connection: pool is closed" ≠
      "Database pool not initialized. Call create_pool() first." := by
  exact ⟨rfl, by decide⟩

/-- C2 (amended): after `close_pool` completes on a manager that had a
pool, `is_connected` returns false, and every subsequent
`get_connection` fails with a `DatabaseError` — the wrap of the driver's
closed-pool acquisition failure, not the "not initialized" message —
rather than hanging or panicking. -/
theorem c2_after_close (α : Type) (st : ManagerState) (p : Pool)
    (h : st.pool = some p) :
    is_connected (close_pool st) = false ∧
    ∀ (acq : Except PyErr Unit) (body : Except PyErr α),
      get_connection (close_pool st) acq body =
        .error (.databaseError
          "Failed to acquire database connection: pool is closed") := by
  have hc : close_pool st = ⟨some { p with closed := true }, false⟩ := by
    simp [close_pool, h]
  constructor
  · simp [is_connected, hc]
  · intro acq body
    simp [get_connection, hc, Pool.acquire, PyErr.msg]

/-- Witness for `c2_after_close` at a concrete closed manager. -/
theorem c2_after_close_witness :
    is_connected (close_pool ⟨some Pool.new, true⟩) = false ∧
    get_connection (close_pool ⟨some Pool.new, true⟩) (.ok ()) (.ok (1 : Int)) =
      .error (.databaseError
        "Failed to acquire database connection: pool is closed") :=
  ⟨(c2_after_close Int ⟨some Pool.new, true⟩ Pool.new rfl).1,
   (c2_after_close Int ⟨some Pool.new, true⟩ Pool.new rfl).2 (.ok ()) (.ok 1)⟩

/-- C3 counterexample: with an empty DSN, `create_pool` raises
`ValueError("Database URL not configured")` — a `ValueError`, not the
`DatabaseError` the claim states. -/
theorem c3_counterexample :
    (create_pool cfgEmpty storeOK initState).result =
      .error (.valueError "Database URL not configured") ∧
    PyErr.isDatabaseError (.valueError "Database URL not configured") = false :=
  ⟨rfl, rfl⟩

/-- C3 (amended): for every configuration whose DSN is absent or empty,
`create_pool` fails immediately with a `ValueError` ("Database URL not
configured"), performing zero pool-construction attempts, zero backoff
sleeps, and leaving the manager state unchanged. -/
theorem c3_empty_dsn (cfg : Config) (store : Store) (st : ManagerState)
    (h : cfg.dsnTruthy = false) :
    (create_pool cfg store st).result =
      .error (.valueError "Database URL not configured") ∧
    (create_pool cfg store st).attemptsMade = 0 ∧
    (create_pool cfg store st).sleeps = [] ∧
    (create_pool cfg store st).state = st := by
  simp [create_pool, h]

/-- Witness for `c3_empty_dsn` at the empty-DSN configuration. -/
theorem c3_empty_dsn_witness :
    Config.dsnTruthy cfgEmpty = false ∧
    (create_pool cfgEmpty storeOK initState).attemptsMade = 0 :=
  ⟨rfl, (c3_empty_dsn cfgEmpty storeOK initState rfl).2.1⟩

/-- C4: against a store whose pool construction fails on every attempt,
`create_pool` makes exactly 3 attempts, sleeping 1 then 2 time-units
between consecutive attempts (none after the last), then raises a
`DatabaseError` that wraps the last underlying error and states the
number of attempts; `is_connected` is false after every attempt and at
the end. -/
theorem c4_all_attempts_fail (cfg : Config) (store : Store)
    (e0 e1 e2 : PyErr) (hc : cfg.dsnTruthy = true)
    (h0 : store.createErr 0 = some e0) (h1 : store.createErr 1 = some e1)
    (h2 : store.createErr 2 = some e2) :
    (create_pool cfg store initState).result =
      .error (.databaseError
        ("Failed to establish database connection after 3 attempts: "
          ++ e2.msg)) ∧
    (create_pool cfg store initState).attemptsMade = 3 ∧
    (create_pool cfg store initState).sleeps = [1, 2] ∧
    (create_pool cfg store initState).states.map is_connected =
      [false, false, false] ∧
    is_connected (create_pool cfg store initState).state = false := by
  have e : create_pool cfg store initState =
      create_pool_loop store initState 0 retryAttempts := by
    simp [create_pool, hc]
  have l0 : create_pool_loop store initState 0 3 =
      ⟨(create_pool_loop store initState 1 2).result,
        (create_pool_loop store initState 1 2).state,
        retryDelay * 2 ^ 0 :: (create_pool_loop store initState 1 2).sleeps,
        (create_pool_loop store initState 1 2).attemptsMade + 1,
        initState :: (create_pool_loop store initState 1 2).states⟩ := by
    simpa using create_pool_loop_step_err store initState 0 e0 2 (by decide) h0
  have l1 : create_pool_loop store initState 1 2 =
      ⟨(create_pool_loop store initState 2 1).result,
        (create_pool_loop store initState 2 1).state,
        retryDelay * 2 ^ 1 :: (create_pool_loop store initState 2 1).sleeps,
        (create_pool_loop store initState 2 1).attemptsMade + 1,
        initState :: (create_pool_loop store initState 2 1).states⟩ := by
    simpa using create_pool_loop_step_err store initState 1 e1 1 (by decide) h1
  have l2 : create_pool_loop store initState 2 1 =
      ⟨.error (.databaseError
          ("Failed to establish database connection after "
            ++ toString retryAttempts ++ " attempts: " ++ e2.msg)),
        initState, [], 1, [initState]⟩ :=
    create_pool_loop_last_err store initState 2 e2 h2
  have hs : "Failed to establish database connection after "
      ++ toString retryAttempts ++ " attempts: " =
      "Failed to establish database connection after 3 attempts: " := rfl
  rw [e, show retryAttempts = 3 from rfl, l0, l1, l2]
  refine ⟨by rw [← hs], by norm_num, ?_, ?_, ?_⟩
  · show [retryDelay * 2 ^ 0, retryDelay * 2 ^ 1] = [1, 2]
    simp [retryDelay]
  · simp [is_connected, initState]
  · simp [is_connected, initState]

/-- Witness for `c4_all_attempts_fail` on the always-failing store. -/
theorem c4_all_attempts_fail_witness :
    (Config.dsnTruthy cfgSet = true ∧
      storeFail.createErr 0 = some (.driverError "connection refused") ∧
      storeFail.createErr 1 = some (.driverError "connection refused") ∧
      storeFail.createErr 2 = some (.driverError "connection refused")) ∧
    ((create_pool cfgSet storeFail initState).result =
      .error (.databaseError
        ("Failed to establish database connection after 3 attempts: "
          ++ PyErr.msg (.driverError "connection refused"))) ∧
    (create_pool cfgSet storeFail initState).attemptsMade = 3 ∧
    (create_pool cfgSet storeFail initState).sleeps = [1, 2] ∧
    (create_pool cfgSet storeFail initState).states.map is_connected =
      [false, false, false] ∧
    is_connected (create_pool cfgSet storeFail initState).state = false) :=
  ⟨⟨rfl, rfl, rfl, rfl⟩,
    c4_all_attempts_fail cfgSet storeFail (.driverError "connection refused")
      (.driverError "connection refused") (.driverError "connection refused")
      rfl rfl rfl rfl⟩

/-- C5: against a store failing its first two constructions and
succeeding on the third, `create_pool` returns success after exactly two
backoff sleeps of 1 then 2 time-units, makes exactly 3 attempts and no
more, and `is_connected` is false after the first two attempts and true
only after the third. -/
theorem c5_third_attempt_succeeds (cfg : Config) (store : Store)
    (e0 e1 : PyErr) (hc : cfg.dsnTruthy = true)
    (h0 : store.createErr 0 = some e0) (h1 : store.createErr 1 = some e1)
    (h2 : store.createErr 2 = none) :
    (create_pool cfg store initState).result = .ok () ∧
    (create_pool cfg store initState).sleeps = [1, 2] ∧
    (create_pool cfg store initState).attemptsMade = 3 ∧
    (create_pool cfg store initState).states.map is_connected =
      [false, false, true] ∧
    is_connected (create_pool cfg store initState).state = true := by
  have e : create_pool cfg store initState =
      create_pool_loop store initState 0 retryAttempts := by
    simp [create_pool, hc]
  have l0 : create_pool_loop store initState 0 3 =
      ⟨(create_pool_loop store initState 1 2).result,
        (create_pool_loop store initState 1 2).state,
        retryDelay * 2 ^ 0 :: (create_pool_loop store initState 1 2).sleeps,
        (create_pool_loop store initState 1 2).attemptsMade + 1,
        initState :: (create_pool_loop store initState 1 2).states⟩ := by
    simpa using create_pool_loop_step_err store initState 0 e0 2 (by decide) h0
  have l1 : create_pool_loop store initState 1 2 =
      ⟨(create_pool_loop store initState 2 1).result,
        (create_pool_loop store initState 2 1).state,
        retryDelay * 2 ^ 1 :: (create_pool_loop store initState 2 1).sleeps,
        (create_pool_loop store initState 2 1).attemptsMade + 1,
        initState :: (create_pool_loop store initState 2 1).states⟩ := by
    simpa using create_pool_loop_step_err store initState 1 e1 1 (by decide) h1
  have l2 : create_pool_loop store initState 2 1 =
      ⟨.ok (), ⟨some Pool.new, true⟩, [], 1, [⟨some Pool.new, true⟩]⟩ := by
    simpa using create_pool_loop_ok store initState 2 0 h2
  rw [e, show retryAttempts = 3 from rfl, l0, l1, l2]
  refine ⟨rfl, ?_, by norm_num, ?_, ?_⟩
  · show [retryDelay * 2 ^ 0, retryDelay * 2 ^ 1] = [1, 2]
    simp [retryDelay]
  · simp [is_connected, initState, Pool.new]
  · simp [is_connected, Pool.new]

/-- Witness for `c5_third_attempt_succeeds` on the
fails-twice-then-succeeds store. -/
theorem c5_third_attempt_succeeds_witness :
    (Config.dsnTruthy cfgSet = true ∧
      storeThird.createErr 0 = some (.driverError "connection refused") ∧
      storeThird.createErr 1 = some (.driverError "connection refused") ∧
      storeThird.createErr 2 = none) ∧
    ((create_pool cfgSet storeThird initState).result = .ok () ∧
    (create_pool cfgSet storeThird initState).sleeps = [1, 2] ∧
    (create_pool cfgSet storeThird initState).attemptsMade = 3 ∧
    (create_pool cfgSet storeThird initState).states.map is_connected =
      [false, false, true] ∧
    is_connected (create_pool cfgSet storeThird initState).state = true) :=
  ⟨⟨rfl, rfl, rfl, rfl⟩,
    c5_third_attempt_succeeds cfgSet storeThird
      (.driverError "connection refused") (.driverError "connection refused")
      rfl rfl rfl rfl⟩

/-- C6: for every store content and query vector, the similarity search
returns at most 5 rows, the returned sequence is ordered ascending by
the computed score, and every returned row is a stored document's
content with score `1 - dist(embedding, q)`. -/
theorem c6_similarity_search (dist : List ℚ → List ℚ → ℚ)
    (docs : List DocRow) (q : List ℚ) :
    (similarity_rows dist docs q).length ≤ 5 ∧
    List.Sorted scoreLE (similarity_rows dist docs q) ∧
    ∀ r ∈ similarity_rows dist docs q,
      ∃ d ∈ docs, r.1 = d.content ∧ r.2 = 1 - dist d.emb q := by
  refine ⟨List.length_take_le 5 _, ?_, ?_⟩
  · exact (List.sorted_insertionSort scoreLE _).sublist (List.take_sublist _ _)
  · intro r hr
    have hr2 := List.mem_of_mem_take hr
    rw [List.mem_insertionSort] at hr2
    obtain ⟨d, hd, hde⟩ := List.mem_map.mp hr2
    exact ⟨d, hd, by rw [← hde], by rw [← hde]⟩

/-- Witness for `c6_similarity_search`'s membership conjunct on a
one-document store with a trivial distance operator. -/
theorem c6_similarity_search_witness :
    ("A", (1 : ℚ)) ∈ similarity_rows (fun _ _ => 0) [⟨"A", []⟩] [] ∧
    ∃ d ∈ [(⟨"A", []⟩ : DocRow)], ("A", (1 : ℚ)).1 = d.content ∧
      ("A", (1 : ℚ)).2 = 1 - (fun _ _ => (0 : ℚ)) d.emb ([] : List ℚ) := by
  have hmem : ("A", (1 : ℚ)) ∈ similarity_rows (fun _ _ => 0) [⟨"A", []⟩] [] := by
    simp [similarity_rows]
  exact ⟨hmem,
    (c6_similarity_search (fun _ _ => 0) [⟨"A", []⟩] []).2.2 ("A", 1) hmem⟩

/-- String concatenation is associative (componentwise on the underlying
character lists). -/
theorem string_append_assoc (a b c : String) : a ++ b ++ c = a ++ (b ++ c) := by
  cases a with
  | mk da =>
    cases b with
    | mk db =>
      cases c with
      | mk dc =>
        show String.mk (da ++ db ++ dc) = String.mk (da ++ (db ++ dc))
        rw [List.append_assoc]

/-- Joining after merging the first two items agrees with prepending. -/
theorem pyJoin_append_cons (s x y : String) (l : List String) :
    pyJoin s ((x ++ y) :: l) = x ++ pyJoin s (y :: l) := by
  cases l with
  | nil => rfl
  | cons b bs =>
    show x ++ y ++ s ++ pyJoin s (b :: bs) = x ++ (y ++ s ++ pyJoin s (b :: bs))
    simp [string_append_assoc]

/-- The accumulator worker of `String.intercalate` computes `pyJoin` of
the accumulator consed onto the remaining items. -/
theorem intercalate_go_eq (s : String) :
    ∀ (l : List String) (acc : String),
      String.intercalate.go acc s l = pyJoin s (acc :: l) := by
  intro l
  induction l with
  | nil => intro acc; rfl
  | cons a as ih =>
    intro acc
    show String.intercalate.go (acc ++ s ++ a) s as = _
    rw [ih, pyJoin_append_cons s (acc ++ s) a as]
    rfl

/-- Python's `sep.join` agrees with `String.intercalate`. -/
theorem pyJoin_eq_intercalate (s : String) (l : List String) :
    pyJoin s l = String.intercalate s l := by
  cases l with
  | nil => rfl
  | cons a as =>
    show pyJoin s (a :: as) = String.intercalate.go a s as
    rw [intercalate_go_eq]

/-- C7: `embedding_to_postgres_vector` renders exactly `'['`, the
values' renderings joined by commas with no surrounding whitespace, and
`']'` (the spec-side literal via `String.intercalate`); the empty input
yields `"[]"`, and two values rendering to `"1.0"` and `"2.5"` yield
`"[1.0,2.5]"`. -/
theorem c7_encode_vector (pystr : α → String) (xs : List α) :
    embedding_to_postgres_vector pystr xs = specVectorLiteral pystr xs ∧
    embedding_to_postgres_vector pystr ([] : List α) = "[]" ∧
    ∀ a b : α, pystr a = "1.0" → pystr b = "2.5" →
      embedding_to_postgres_vector pystr [a, b] = "[1.0,2.5]" := by
  refine ⟨?_, rfl, ?_⟩
  · simp [embedding_to_postgres_vector, specVectorLiteral,
      pyJoin_eq_intercalate]
  · intro a b ha hb
    simp [embedding_to_postgres_vector, pyJoin, ha, hb]

/-- Witness for `c7_encode_vector` with the identity rendering. -/
theorem c7_encode_vector_witness :
    ((fun t : String => t) "1.0" = "1.0" ∧
      (fun t : String => t) "2.5" = "2.5") ∧
    embedding_to_postgres_vector (fun t : String => t) ["1.0", "2.5"] =
      "[1.0,2.5]" :=
  ⟨⟨rfl, rfl⟩, (c7_encode_vector (fun t : String => t) ["1.0", "2.5"]).2.2
    "1.0" "2.5" rfl rfl⟩

/-- A successful scoped execution means the body itself succeeded with
that very value. -/
theorem get_connection_ok (st : ManagerState) (acq : Except PyErr Unit)
    (body : Except PyErr α) (v : α)
    (h : get_connection st acq body = .ok v) : body = .ok v := by
  cases hp : st.pool with
  | none => simp [get_connection, hp] at h
  | some p =>
    cases ha : p.acquire acq with
    | error e => simp [get_connection, hp, ha] at h
    | ok u =>
      cases hb : body with
      | error e => simp [get_connection, hp, ha, hb] at h
      | ok a =>
        simp [get_connection, hp, ha, hb] at h
        rw [h]

/-- Every error escaping a connection scope is a `DatabaseError`. -/
theorem get_connection_err (st : ManagerState) (acq : Except PyErr Unit)
    (body : Except PyErr α) (e : PyErr)
    (h : get_connection st acq body = .error e) :
    e.isDatabaseError = true := by
  cases hp : st.pool with
  | none =>
    simp [get_connection, hp] at h
    rw [← h]
    rfl
  | some p =>
    cases ha : p.acquire acq with
    | error e2 =>
      simp [get_connection, hp, ha] at h
      rw [← h]
      rfl
    | ok u =>
      cases hb : body with
      | error e2 =>
        simp [get_connection, hp, ha, hb] at h
        rw [← h]
        rfl
      | ok a => simp [get_connection, hp, ha, hb] at h

/-- C8: `execute_query` either returns the full eagerly-collected row
set of its single fetch or fails with a `DatabaseError` carrying the
cause — never a raw driver error — and the statement is never retried:
the outcome depends only on fetch invocation 0. -/
theorem c8_execute_query (α : Type) (st : ManagerState)
    (acq : Except PyErr Unit) (fetch : Nat → Except PyErr (List α)) :
    (∀ rows, execute_query st acq fetch = .ok rows → fetch 0 = .ok rows) ∧
    (∀ e, execute_query st acq fetch = .error e →
      e.isDatabaseError = true) ∧
    (∀ g : Nat → Except PyErr (List α), fetch 0 = g 0 →
      execute_query st acq fetch = execute_query st acq g) := by
  refine ⟨?_, ?_, ?_⟩
  · intro rows h
    unfold execute_query at h
    cases hg : get_connection st acq (fetch 0) with
    | ok v =>
      rw [hg] at h
      simp at h
      rw [get_connection_ok st acq (fetch 0) v hg, h]
    | error e =>
      rw [hg] at h
      simp at h
  · intro e h
    unfold execute_query at h
    cases hg : get_connection st acq (fetch 0) with
    | ok v =>
      rw [hg] at h
      simp at h
    | error e2 =>
      rw [hg] at h
      simp at h
      rw [← h]
      rfl
  · intro g hg
    unfold execute_query
    rw [hg]

/-- Witness for `c8_execute_query` on a connected manager and a
one-row fetch. -/
theorem c8_execute_query_witness :
    (fun _ : Nat => (Except.ok [(1 : Int)] : Except PyErr (List Int))) 0 =
      .ok [(1 : Int)] :=
  (c8_execute_query Int ⟨some Pool.new, true⟩ (.ok ())
    (fun _ => .ok [(1 : Int)])).1 [(1 : Int)] rfl

/-- C9: `health_check` is a total boolean — every failure is caught and
reported as `false`, never raised — and it returns `true` exactly when a
pool exists, is open, acquisition succeeds, and the round-trip
`SELECT 1` fetch observes the expected sentinel value 1. -/
theorem c9_health_check (st : ManagerState) (acq : Except PyErr Unit)
    (fetch : Except PyErr Int) :
    health_check st acq fetch = true ↔
      ∃ p, st.pool = some p ∧ p.closed = false ∧ acq = .ok () ∧
        fetch = .ok 1 := by
  constructor
  · intro h
    cases hp : st.pool with
    | none => simp [health_check, get_connection, hp] at h
    | some p =>
      by_cases hc : p.closed
      · simp [health_check, get_connection, Pool.acquire, hp, hc] at h
      · cases ha : acq with
        | error e =>
          simp [health_check, get_connection, Pool.acquire, hp, hc, ha] at h
        | ok u =>
          cases u
          cases hf : fetch with
          | error e =>
            simp [health_check, get_connection, Pool.acquire, hp, hc, ha,
              hf, Except.map] at h
          | ok v =>
            simp [health_check, get_connection, Pool.acquire, hp, hc, ha,
              hf, Except.map] at h
            exact ⟨p, rfl, by simpa using hc, rfl, by rw [h]⟩
  · rintro ⟨p, hp, hc, ha, hf⟩
    simp [health_check, get_connection, Pool.acquire, hp, hc, ha, hf,
      Except.map]

/-- Witness for `c9_health_check` on a healthy connected manager. -/
theorem c9_health_check_witness :
    health_check ⟨some Pool.new, true⟩ (.ok ()) (.ok 1) = true :=
  (c9_health_check ⟨some Pool.new, true⟩ (.ok ()) (.ok 1)).mpr
    ⟨Pool.new, rfl, rfl, rfl, rfl⟩

/-- An embedding client that distinguishes the full "Defra:"-prefixed
query from its schema-stripped form. -/
def embedSensitive (s : String) : List ℚ :=
  if s = "Defra: pgvector" then [1] else [0]

/-- A distance operator reading off the query vector's head. -/
def distHead (emb q : List ℚ) : ℚ :=
  match emb with
  | _ => q.headD 0

/-- A one-document store content. -/
def docsOne : List DocRow := [⟨"A", [0]⟩]

/-- C10: `call_defra_docs` passes the query to the embedding client
verbatim: its result is the similarity search on `embed input.query`
itself and depends only on the embedding of the full query string, while
the stripping documented by the tool's input schema would change a
"Defra:"-prefixed query — and there are environments where that
difference is observable in the returned documents. -/
theorem c10_no_prefix_strip :
    (∀ (embed : String → List ℚ) (dist : List ℚ → List ℚ → ℚ)
        (docs : List DocRow) (input : ToolInput),
      call_defra_docs embed dist docs input =
        (similarity_rows dist docs (embed input.query)).map
          (fun r => ⟨r.1, r.2⟩)) ∧
    (∀ (e1 e2 : String → List ℚ) (dist : List ℚ → List ℚ → ℚ)
        (docs : List DocRow) (q : String), e1 q = e2 q →
      call_defra_docs e1 dist docs ⟨q⟩ = call_defra_docs e2 dist docs ⟨q⟩) ∧
    schemaStrippedQuery "Defra: pgvector" ≠ "Defra: pgvector" ∧
    ∃ (embed : String → List ℚ) (dist : List ℚ → List ℚ → ℚ)
        (docs : List DocRow),
      call_defra_docs embed dist docs ⟨"Defra: pgvector"⟩ ≠
        call_defra_docs embed dist docs
          ⟨schemaStrippedQuery "Defra: pgvector"⟩ := by
  refine ⟨fun _ _ _ _ => rfl, ?_, by decide, ?_⟩
  · intro e1 e2 dist docs q h
    simp [call_defra_docs, h]
  · refine ⟨embedSensitive, distHead, docsOne, ?_⟩
    have hne : schemaStrippedQuery "Defra: pgvector" ≠ "Defra: pgvector" := by
      decide
    have e1 : call_defra_docs embedSensitive distHead docsOne
        ⟨"Defra: pgvector"⟩ = [⟨"A", 0⟩] := by
      simp [call_defra_docs, embedSensitive, distHead, docsOne,
        similarity_rows]
    have e2 : call_defra_docs embedSensitive distHead docsOne
        ⟨schemaStrippedQuery "Defra: pgvector"⟩ = [⟨"A", 1⟩] := by
      simp [call_defra_docs, embedSensitive, distHead, docsOne,
        similarity_rows, hne]
    rw [e1, e2]
    simp

/-- Witness for `c10_no_prefix_strip`'s dependence conjunct. -/
theorem c10_no_prefix_strip_witness :
    ((fun _ : String => ([] : List ℚ)) "q" =
      (fun _ : String => ([] : List ℚ)) "q") ∧
    call_defra_docs (fun _ => []) (fun _ _ => 0) [] ⟨"q"⟩ =
      call_defra_docs (fun _ => []) (fun _ _ => 0) [] ⟨"q"⟩ :=
  ⟨rfl, c10_no_prefix_strip.2.1 (fun _ => []) (fun _ => [])
    (fun _ _ => 0) [] "q" rfl⟩

end Spec2Proof
